import Mathlib

/-!
Shallow embedding of the risk-scoring engine of `src/backend/server.py`
(predictive-maintenance backend).  Machine floats are modelled by `ℚ`;
Python dictionaries by association lists with strict lookup; a missing
dictionary key raises Python's `KeyError`, modelled by `Except` with an
error value that records the missing key.  The embedded functions are
`calculate_subscore` (lines 288-304) and the scoring pipeline of the
`/api/predict` handler (lines 306-481), split into named pieces that
mirror the handler's blocks.
-/

namespace PredMaint

/-- One threshold band: `{green, yellow, red?}` as stored in the
`DEFAULT_THRESHOLDS` dictionaries (`red` is absent for vibration,
feed-rate and running-hours bands). -/
structure Band where
  green : ℚ
  yellow : ℚ
  red : Option ℚ
deriving DecidableEq

/-- Python truthiness of the `red_threshold` parameter
(`if red_threshold:` at line 297): `None` and `0` are falsy. -/
def truthy : Option ℚ → Bool
  | none => false
  | some r => r != 0

/-- `calculate_subscore` (server.py lines 288-304), verbatim:
three-segment piecewise-linear map with an optional red breakpoint. -/
def calculate_subscore (value green_threshold yellow_threshold : ℚ)
    (red_threshold : Option ℚ) : ℚ :=
  if value ≤ green_threshold then
    (value / green_threshold) * 30
  else if value ≤ yellow_threshold then
    30 + ((value - green_threshold) / (yellow_threshold - green_threshold)) * 40
  else if truthy red_threshold then
    let r := red_threshold.getD 0
    70 + (min (value - yellow_threshold) (r - yellow_threshold)) / (r - yellow_threshold) * 30
  else
    min (70 + ((value - yellow_threshold) / yellow_threshold) * 30) 100

/-- The per-sensor-mode / per-machine threshold tables
(the `thresholds` dictionary of the configuration).  `prototype_temp` is
`thresholds['prototype_low_temp']['temperature']`; the four others are
metric-name dictionaries keyed by machine type. -/
structure ThresholdsDB where
  prototype_temp : Option Band
  shopfloor : List (String × Band)
  vibration : List (String × Band)
  feed_rate : List (String × Band)
  running_hours : List (String × Band)
deriving DecidableEq

/-- `DEFAULT_THRESHOLDS` (server.py lines 142-170). -/
def DEFAULT_THRESHOLDS : ThresholdsDB where
  prototype_temp := some ⟨40, 45, some 120⟩
  shopfloor := [("CNC", ⟨75, 95, some 120⟩), ("EDM", ⟨70, 90, some 120⟩),
    ("Lathe", ⟨70, 90, some 120⟩), ("Grinding", ⟨65, 85, some 120⟩)]
  vibration := [("CNC", ⟨70, 100, none⟩), ("EDM", ⟨60, 90, none⟩),
    ("Lathe", ⟨70, 100, none⟩), ("Grinding", ⟨50, 80, none⟩)]
  feed_rate := [("CNC", ⟨1500, 2000, none⟩), ("EDM", ⟨500, 700, none⟩),
    ("Lathe", ⟨900, 1200, none⟩), ("Grinding", ⟨400, 600, none⟩)]
  running_hours := [("CNC", ⟨10000, 12000, none⟩), ("EDM", ⟨9000, 11000, none⟩),
    ("Lathe", ⟨11000, 13000, none⟩), ("Grinding", ⟨8000, 10000, none⟩)]

/-- The stored configuration document.  Both fields are read with
`config.get(..., default)` in the handler, hence `Option`. -/
structure Config where
  sensor_mode : Option String
  thresholds : Option ThresholdsDB
deriving DecidableEq

/-- The body of `/api/predict` requests (the `PredictionRequest` model,
lines 78-84); `temperature` is optional. -/
structure PredictionRequest where
  machine_type : String
  running_hours : ℚ
  feeding_rate : ℚ
  temperature : Option ℚ
  vibration : ℚ
  maintenance_date : String
deriving DecidableEq

/-- Failure modes of the handler: an uncaught Python `KeyError` from a
strict dictionary lookup (recording the missing key), or an explicit
`HTTPException` (status code and detail). -/
inductive PredictError where
  | keyError (key : String)
  | httpError (status : Nat) (detail : String)
deriving DecidableEq

/-- The scoring fields of the handler's response (condition level,
reported risk score rounded to 2 decimals, final alerts list). -/
structure PredictResult where
  condition_level : String
  risk_score : ℚ
  alerts : List String
deriving DecidableEq

/-- Lines 309-317: fetch the configuration; when none exists, the
default configuration is built and inserted.  The boolean records
whether the default configuration was persisted. -/
def configToUse : Option Config → Config × Bool
  | none => ({ sensor_mode := some "prototype_low_temp", thresholds := some DEFAULT_THRESHOLDS }, true)
  | some c => (c, false)

/-- Lines 322-328: use the request temperature, else the latest stored
temperature for the machine type, else reject with HTTP 400. -/
def resolveTemperature (latest : List (String × ℚ)) (request : PredictionRequest) :
    Except PredictError ℚ :=
  match request.temperature with
  | some t => Except.ok t
  | none =>
    match latest.lookup request.machine_type with
    | some t => Except.ok t
    | none => Except.error (PredictError.httpError 400
        ("No temperature data available for " ++ request.machine_type))

/-- A strict per-machine dictionary lookup, `table[machine]`: a missing
key raises `KeyError(machine)`. -/
def lookupBand (table : List (String × Band)) (machine : String) : Except PredictError Band :=
  match table.lookup machine with
  | some b => Except.ok b
  | none => Except.error (PredictError.keyError machine)

/-- Lines 334-337: temperature band selection.  Only the literal
sensor mode `prototype_low_temp` selects the shared prototype band;
every other string falls to the per-machine shopfloor table. -/
def tempBandLookup (sensor_mode : String) (thresholds : ThresholdsDB) (machine : String) :
    Except PredictError Band :=
  if sensor_mode = "prototype_low_temp" then
    match thresholds.prototype_temp with
    | some b => Except.ok b
    | none => Except.error (PredictError.keyError "temperature")
  else
    lookupBand thresholds.shopfloor machine

/-- Lines 370-378: the fixed weights and the aggregate risk score. -/
def weightedRisk (temp_subscore vib_subscore feed_subscore hours_subscore : ℚ) : ℚ :=
  0.35 * temp_subscore + 0.35 * vib_subscore + 0.15 * feed_subscore + 0.15 * hours_subscore

/-- `round(x, 2)` (lines 459 and 471): the reported score keeps two
decimal places. -/
def round2 (q : ℚ) : ℚ := (round (q * 100) : ℤ) / 100

/-- Temperature alert collection (lines 385-393); the red breakpoint
defaults to 120 when the band has none (`temp_thresholds.get('red', 120)`). -/
def tempAlerts (temperature : ℚ) (tb : Band) : List String :=
  if tb.red.getD 120 < temperature then ["CRITICAL: Temperature exceeds safe limits"]
  else if tb.yellow < temperature then ["Temperature approaching limits"]
  else []

/-- Vibration alert collection (lines 395-402). -/
def vibAlerts (vib : ℚ) (vb : Band) : List String :=
  if vb.yellow < vib then ["Vibration exceeds normal range"]
  else if vb.green < vib then ["Vibration caution"]
  else []

/-- Feed-rate alert collection (lines 404-411). -/
def feedAlerts (feed : ℚ) (fb : Band) : List String :=
  if fb.yellow < feed then ["Feed rate too high"]
  else if fb.green < feed then ["Feed rate elevated"]
  else []

/-- Running-hours alert collection (lines 413-420). -/
def hoursAlerts (hours : ℚ) (hb : Band) : List String :=
  if hb.yellow < hours then ["Service window exceeded"]
  else if hb.green < hours then ["Service window approaching"]
  else []

/-- Phase one of the alert logic: the per-metric alerts collected by the
four checks, in source order. -/
def perMetricAlerts (temperature vib feed hours : ℚ) (tb vb fb hb : Band) : List String :=
  tempAlerts temperature tb ++ vibAlerts vib vb ++ feedAlerts feed fb ++ hoursAlerts hours hb

/-- `has_red` (lines 423-428): temperature past its red breakpoint
(default 120) or any other metric past its yellow breakpoint. -/
def hasRed (temperature vib feed hours : ℚ) (tb vb fb hb : Band) : Bool :=
  decide (tb.red.getD 120 < temperature) || decide (vb.yellow < vib) ||
    decide (fb.yellow < feed) || decide (hb.yellow < hours)

/-- `has_yellow` (lines 430-435): temperature past yellow or any other
metric past its green breakpoint. -/
def hasYellow (temperature vib feed hours : ℚ) (tb vb fb hb : Band) : Bool :=
  decide (tb.yellow < temperature) || decide (vb.green < vib) ||
    decide (fb.green < feed) || decide (hb.green < hours)

/-- Lines 437-447: tier classification in priority order, together with
the fallback-alert phase run on the already collected alert list. -/
def classify (hr hy : Bool) (risk_score : ℚ) (alerts : List String) : String × List String :=
  if hr || decide (70 ≤ risk_score) then
    ("Critical", if alerts.isEmpty then ["Immediate repair recommended"] else alerts)
  else if hy || decide (35 ≤ risk_score) then
    ("Medium", if alerts.isEmpty then ["Schedule inspection"] else alerts)
  else
    ("Good", ["All metrics within safe bands"])

/-- The unrounded aggregate risk score of a reading against resolved
bands (the `risk_score` local of lines 373-378, before rounding). -/
def rawRisk (temperature vib feed hours : ℚ) (tb vb fb hb : Band) : ℚ :=
  weightedRisk
    (calculate_subscore temperature tb.green tb.yellow (some (tb.red.getD 120)))
    (calculate_subscore vib vb.green vb.yellow none)
    (calculate_subscore feed fb.green fb.yellow none)
    (calculate_subscore hours hb.green hb.yellow none)

/-- Lines 343-471: scoring of one reading against four resolved bands:
subscores, weighted aggregate, per-metric alerts, classification with
fallback alerts, and the reported (rounded) risk score. -/
def scoreCore (temperature vib feed hours : ℚ) (tb vb fb hb : Band) : PredictResult :=
  let risk_score := rawRisk temperature vib feed hours tb vb fb hb
  let alerts := perMetricAlerts temperature vib feed hours tb vb fb hb
  let hr := hasRed temperature vib feed hours tb vb fb hb
  let hy := hasYellow temperature vib feed hours tb vb fb hb
  let cl := classify hr hy risk_score alerts
  { condition_level := cl.1, risk_score := round2 risk_score, alerts := cl.2 }

/-- The `/api/predict` pipeline (lines 306-481): configuration fetch
with first-run default, temperature resolution, strict threshold
lookups, then scoring.  A prediction record is produced (and persisted)
only on `Except.ok`. -/
def predict (cfg : Option Config) (latest : List (String × ℚ)) (request : PredictionRequest) :
    Except PredictError PredictResult :=
  let config := (configToUse cfg).1
  let sensor_mode := config.sensor_mode.getD "prototype_low_temp"
  let thresholds := config.thresholds.getD DEFAULT_THRESHOLDS
  match resolveTemperature latest request with
  | Except.error e => Except.error e
  | Except.ok temperature =>
    match tempBandLookup sensor_mode thresholds request.machine_type with
    | Except.error e => Except.error e
    | Except.ok temp_thresholds =>
      match lookupBand thresholds.vibration request.machine_type with
      | Except.error e => Except.error e
      | Except.ok vib_thresholds =>
        match lookupBand thresholds.feed_rate request.machine_type with
        | Except.error e => Except.error e
        | Except.ok feed_thresholds =>
          match lookupBand thresholds.running_hours request.machine_type with
          | Except.error e => Except.error e
          | Except.ok hours_thresholds =>
            Except.ok (scoreCore temperature request.vibration request.feeding_rate
              request.running_hours temp_thresholds vib_thresholds feed_thresholds hours_thresholds)

/-- The condition level produced by `scoreCore` is the priority chain of
lines 437-447, spelled out over the classification booleans. -/
theorem scoreCore_level (t v f h : ℚ) (tb vb fb hb : Band) :
    (scoreCore t v f h tb vb fb hb).condition_level =
      if hasRed t v f h tb vb fb hb || decide ((70:ℚ) ≤ rawRisk t v f h tb vb fb hb) then
        "Critical"
      else if hasYellow t v f h tb vb fb hb || decide ((35:ℚ) ≤ rawRisk t v f h tb vb fb hb) then
        "Medium"
      else "Good" := by
  cases hc1 : hasRed t v f h tb vb fb hb || decide ((70:ℚ) ≤ rawRisk t v f h tb vb fb hb) with
  | true => simp [scoreCore, classify, hc1]
  | false =>
    cases hc2 : hasYellow t v f h tb vb fb hb || decide ((35:ℚ) ≤ rawRisk t v f h tb vb fb hb) with
    | true => simp [scoreCore, classify, hc1, hc2]
    | false => simp [scoreCore, classify, hc1, hc2]

/-- The `has_red or risk_score >= 70` gate of line 437, as a proposition. -/
theorem hasRed_gate_iff (t v f h : ℚ) (tb vb fb hb : Band) :
    (hasRed t v f h tb vb fb hb || decide ((70:ℚ) ≤ rawRisk t v f h tb vb fb hb)) = true ↔
      (tb.red.getD 120 < t ∨ vb.yellow < v ∨ fb.yellow < f ∨ hb.yellow < h ∨
        70 ≤ rawRisk t v f h tb vb fb hb) := by
  simp only [hasRed, Bool.or_eq_true, decide_eq_true_eq]
  tauto

/-- The `has_yellow or risk_score >= 35` gate of line 441, as a proposition. -/
theorem hasYellow_gate_iff (t v f h : ℚ) (tb vb fb hb : Band) :
    (hasYellow t v f h tb vb fb hb || decide ((35:ℚ) ≤ rawRisk t v f h tb vb fb hb)) = true ↔
      (tb.yellow < t ∨ vb.green < v ∨ fb.green < f ∨ hb.green < h ∨
        35 ≤ rawRisk t v f h tb vb fb hb) := by
  simp only [hasYellow, Bool.or_eq_true, decide_eq_true_eq]
  tauto

/-- C2: classification follows the priority order — Critical iff `has_red`
holds or the aggregate score is `≥ 70`; else Medium iff `has_yellow` holds or
the score is `≥ 35`; else Good — and any single raw value strictly past its
red breakpoint (temperature, default 120) or yellow breakpoint (the other
three metrics) forces Critical regardless of the aggregate score. -/
theorem C2_classification_priority (t v f h : ℚ) (tb vb fb hb : Band) :
    ((scoreCore t v f h tb vb fb hb).condition_level = "Critical" ↔
      (tb.red.getD 120 < t ∨ vb.yellow < v ∨ fb.yellow < f ∨ hb.yellow < h ∨
        70 ≤ rawRisk t v f h tb vb fb hb)) ∧
    ((scoreCore t v f h tb vb fb hb).condition_level = "Medium" ↔
      (¬(tb.red.getD 120 < t ∨ vb.yellow < v ∨ fb.yellow < f ∨ hb.yellow < h ∨
          70 ≤ rawRisk t v f h tb vb fb hb) ∧
        (tb.yellow < t ∨ vb.green < v ∨ fb.green < f ∨ hb.green < h ∨
          35 ≤ rawRisk t v f h tb vb fb hb))) ∧
    ((scoreCore t v f h tb vb fb hb).condition_level = "Good" ↔
      (¬(tb.red.getD 120 < t ∨ vb.yellow < v ∨ fb.yellow < f ∨ hb.yellow < h ∨
          70 ≤ rawRisk t v f h tb vb fb hb) ∧
        ¬(tb.yellow < t ∨ vb.green < v ∨ fb.green < f ∨ hb.green < h ∨
          35 ≤ rawRisk t v f h tb vb fb hb))) ∧
    (tb.red.getD 120 < t → (scoreCore t v f h tb vb fb hb).condition_level = "Critical") ∧
    (vb.yellow < v → (scoreCore t v f h tb vb fb hb).condition_level = "Critical") ∧
    (fb.yellow < f → (scoreCore t v f h tb vb fb hb).condition_level = "Critical") ∧
    (hb.yellow < h → (scoreCore t v f h tb vb fb hb).condition_level = "Critical") := by
  have hl := scoreCore_level t v f h tb vb fb hb
  cases hc1 : hasRed t v f h tb vb fb hb || decide ((70:ℚ) ≤ rawRisk t v f h tb vb fb hb) with
  | true =>
    have hP1 := (hasRed_gate_iff t v f h tb vb fb hb).mp hc1
    rw [hc1] at hl
    simp only [if_true] at hl
    refine ⟨iff_of_true hl hP1,
      iff_of_false (by rw [hl]; decide) (fun hx => hx.1 hP1),
      iff_of_false (by rw [hl]; decide) (fun hx => hx.1 hP1),
      fun _ => hl, fun _ => hl, fun _ => hl, fun _ => hl⟩
  | false =>
    have hnp1 : ¬(tb.red.getD 120 < t ∨ vb.yellow < v ∨ fb.yellow < f ∨ hb.yellow < h ∨
        70 ≤ rawRisk t v f h tb vb fb hb) := fun hp =>
      absurd ((hasRed_gate_iff t v f h tb vb fb hb).mpr hp) (by simp [hc1])
    rw [hc1] at hl
    simp only [Bool.false_eq_true, if_false] at hl
    cases hc2 : hasYellow t v f h tb vb fb hb ||
        decide ((35:ℚ) ≤ rawRisk t v f h tb vb fb hb) with
    | true =>
      have hP2 := (hasYellow_gate_iff t v f h tb vb fb hb).mp hc2
      rw [hc2] at hl
      simp only [if_true] at hl
      refine ⟨iff_of_false (by rw [hl]; decide) hnp1,
        iff_of_true hl ⟨hnp1, hP2⟩,
        iff_of_false (by rw [hl]; decide) (fun hx => hx.2 hP2),
        fun hx => absurd (Or.inl hx) hnp1,
        fun hx => absurd (Or.inr (Or.inl hx)) hnp1,
        fun hx => absurd (Or.inr (Or.inr (Or.inl hx))) hnp1,
        fun hx => absurd (Or.inr (Or.inr (Or.inr (Or.inl hx)))) hnp1⟩
    | false =>
      have hnp2 : ¬(tb.yellow < t ∨ vb.green < v ∨ fb.green < f ∨ hb.green < h ∨
          35 ≤ rawRisk t v f h tb vb fb hb) := fun hp =>
        absurd ((hasYellow_gate_iff t v f h tb vb fb hb).mpr hp) (by simp [hc2])
      rw [hc2] at hl
      simp only [Bool.false_eq_true, if_false] at hl
      refine ⟨iff_of_false (by rw [hl]; decide) hnp1,
        iff_of_false (by rw [hl]; decide) (fun hx => hnp2 hx.2),
        iff_of_true hl ⟨hnp1, hnp2⟩,
        fun hx => absurd (Or.inl hx) hnp1,
        fun hx => absurd (Or.inr (Or.inl hx)) hnp1,
        fun hx => absurd (Or.inr (Or.inr (Or.inl hx))) hnp1,
        fun hx => absurd (Or.inr (Or.inr (Or.inr (Or.inl hx)))) hnp1⟩

/-- The default CNC temperature band (shopfloor mode). -/
def cncTempBand : Band := ⟨75, 95, some 120⟩

/-- The default CNC vibration band. -/
def cncVibBand : Band := ⟨70, 100, none⟩

/-- The default CNC feed-rate band. -/
def cncFeedBand : Band := ⟨1500, 2000, none⟩

/-- The default CNC running-hours band. -/
def cncHoursBand : Band := ⟨10000, 12000, none⟩

/-- Witness for C2: temperature 500, far above the CNC red breakpoint 120,
with the other three metrics at 0, classifies Critical. -/
theorem C2_classification_priority_witness :
    cncTempBand.red.getD 120 < (500:ℚ) ∧
    (scoreCore 500 0 0 0 cncTempBand cncVibBand cncFeedBand cncHoursBand).condition_level =
      "Critical" := by
  have hx : cncTempBand.red.getD 120 < (500:ℚ) := by norm_num [cncTempBand]
  exact ⟨hx, (C2_classification_priority 500 0 0 0 cncTempBand cncVibBand cncFeedBand
    cncHoursBand).2.2.2.1 hx⟩

/-- Counterexample to C3 as stated: with the default CNC bands, temperature 90
strictly exceeds the green breakpoint 75 (it lies between green and yellow)
while the other three metrics are 0, yet the condition level is Good. -/
theorem C3_good_counterexample :
    cncTempBand.green < (90:ℚ) ∧
    (scoreCore 90 0 0 0 cncTempBand cncVibBand cncFeedBand cncHoursBand).condition_level =
      "Good" := by
  constructor
  · norm_num [cncTempBand]
  · norm_num [scoreCore, rawRisk, weightedRisk, calculate_subscore, truthy, perMetricAlerts,
      tempAlerts, vibAlerts, feedAlerts, hoursAlerts, hasRed, hasYellow, classify, round2,
      cncTempBand, cncVibBand, cncFeedBand, cncHoursBand]

/-- C3 as amended: for bands with `yellow < red-default` and `green < yellow`,
the condition level is Good iff the temperature is at or below its **yellow**
breakpoint, each of the other three metrics is at or below its green
breakpoint, and the aggregate risk score is `< 35`; and whenever the level is
Good the alerts list is exactly `["All metrics within safe bands"]`, any
previously collected alerts being unconditionally replaced. -/
theorem C3_good_amended (t v f h : ℚ) (tb vb fb hb : Band)
    (htr : tb.yellow < tb.red.getD 120) (hvb : vb.green < vb.yellow)
    (hfb : fb.green < fb.yellow) (hhb : hb.green < hb.yellow) :
    ((scoreCore t v f h tb vb fb hb).condition_level = "Good" ↔
      (t ≤ tb.yellow ∧ v ≤ vb.green ∧ f ≤ fb.green ∧ h ≤ hb.green ∧
        rawRisk t v f h tb vb fb hb < 35)) ∧
    ((scoreCore t v f h tb vb fb hb).condition_level = "Good" →
      (scoreCore t v f h tb vb fb hb).alerts = ["All metrics within safe bands"]) := by
  have hl := scoreCore_level t v f h tb vb fb hb
  cases hc1 : hasRed t v f h tb vb fb hb || decide ((70:ℚ) ≤ rawRisk t v f h tb vb fb hb) with
  | true =>
    have hP1 := (hasRed_gate_iff t v f h tb vb fb hb).mp hc1
    rw [hc1] at hl
    simp only [if_true] at hl
    constructor
    · refine iff_of_false (by rw [hl]; decide) ?_
      rintro ⟨h1, h2, h3, h4, h5⟩
      rcases hP1 with hx | hx | hx | hx | hx <;> linarith
    · intro hx
      rw [hl] at hx
      exact absurd hx (by decide)
  | false =>
    rw [hc1] at hl
    simp only [Bool.false_eq_true, if_false] at hl
    cases hc2 : hasYellow t v f h tb vb fb hb ||
        decide ((35:ℚ) ≤ rawRisk t v f h tb vb fb hb) with
    | true =>
      have hP2 := (hasYellow_gate_iff t v f h tb vb fb hb).mp hc2
      rw [hc2] at hl
      simp only [if_true] at hl
      constructor
      · refine iff_of_false (by rw [hl]; decide) ?_
        rintro ⟨h1, h2, h3, h4, h5⟩
        rcases hP2 with hx | hx | hx | hx | hx <;> linarith
      · intro hx
        rw [hl] at hx
        exact absurd hx (by decide)
    | false =>
      have hnp2 : ¬(tb.yellow < t ∨ vb.green < v ∨ fb.green < f ∨ hb.green < h ∨
          35 ≤ rawRisk t v f h tb vb fb hb) := fun hp =>
        absurd ((hasYellow_gate_iff t v f h tb vb fb hb).mpr hp) (by simp [hc2])
      push_neg at hnp2
      rw [hc2] at hl
      simp only [Bool.false_eq_true, if_false] at hl
      have ha : (scoreCore t v f h tb vb fb hb).alerts = ["All metrics within safe bands"] := by
        simp [scoreCore, classify, hc1, hc2]
      exact ⟨iff_of_true hl ⟨hnp2.1, hnp2.2.1, hnp2.2.2.1, hnp2.2.2.2.1, hnp2.2.2.2.2⟩,
        fun _ => ha⟩

/-- Witness for C3's amended characterization at the default CNC bands with
the all-green reading (60, 50, 1000, 5000). -/
theorem C3_good_amended_witness :
    cncTempBand.yellow < cncTempBand.red.getD 120 ∧
    cncVibBand.green < cncVibBand.yellow ∧
    cncFeedBand.green < cncFeedBand.yellow ∧
    cncHoursBand.green < cncHoursBand.yellow ∧
    (((scoreCore 60 50 1000 5000 cncTempBand cncVibBand cncFeedBand
        cncHoursBand).condition_level = "Good" ↔
      ((60:ℚ) ≤ cncTempBand.yellow ∧ (50:ℚ) ≤ cncVibBand.green ∧
        (1000:ℚ) ≤ cncFeedBand.green ∧ (5000:ℚ) ≤ cncHoursBand.green ∧
        rawRisk 60 50 1000 5000 cncTempBand cncVibBand cncFeedBand cncHoursBand < 35)) ∧
      ((scoreCore 60 50 1000 5000 cncTempBand cncVibBand cncFeedBand
        cncHoursBand).condition_level = "Good" →
        (scoreCore 60 50 1000 5000 cncTempBand cncVibBand cncFeedBand
          cncHoursBand).alerts = ["All metrics within safe bands"])) :=
  ⟨by norm_num [cncTempBand], by norm_num [cncVibBand], by norm_num [cncFeedBand],
    by norm_num [cncHoursBand],
    C3_good_amended 60 50 1000 5000 cncTempBand cncVibBand cncFeedBand cncHoursBand
      (by norm_num [cncTempBand]) (by norm_num [cncVibBand]) (by norm_num [cncFeedBand])
      (by norm_num [cncHoursBand])⟩

/-- C6: whenever none of the four per-metric checks collected an alert, the
final alerts list is exactly the single generic fallback matching the tier —
"Immediate repair recommended" for Critical, "Schedule inspection" for Medium
— substituted by the classification phase that runs after all four
per-metric checks. -/
theorem C6_generic_fallback_alerts (t v f h : ℚ) (tb vb fb hb : Band)
    (halerts : perMetricAlerts t v f h tb vb fb hb = []) :
    ((scoreCore t v f h tb vb fb hb).condition_level = "Critical" →
      (scoreCore t v f h tb vb fb hb).alerts = ["Immediate repair recommended"]) ∧
    ((scoreCore t v f h tb vb fb hb).condition_level = "Medium" →
      (scoreCore t v f h tb vb fb hb).alerts = ["Schedule inspection"]) := by
  have hl := scoreCore_level t v f h tb vb fb hb
  cases hc1 : hasRed t v f h tb vb fb hb || decide ((70:ℚ) ≤ rawRisk t v f h tb vb fb hb) with
  | true =>
    rw [hc1] at hl
    simp only [if_true] at hl
    have ha : (scoreCore t v f h tb vb fb hb).alerts = ["Immediate repair recommended"] := by
      simp [scoreCore, classify, hc1, halerts]
    refine ⟨fun _ => ha, fun hx => ?_⟩
    rw [hl] at hx
    exact absurd hx (by decide)
  | false =>
    rw [hc1] at hl
    simp only [Bool.false_eq_true, if_false] at hl
    cases hc2 : hasYellow t v f h tb vb fb hb ||
        decide ((35:ℚ) ≤ rawRisk t v f h tb vb fb hb) with
    | true =>
      rw [hc2] at hl
      simp only [if_true] at hl
      have ha : (scoreCore t v f h tb vb fb hb).alerts = ["Schedule inspection"] := by
        simp [scoreCore, classify, hc1, hc2, halerts]
      refine ⟨fun hx => ?_, fun _ => ha⟩
      rw [hl] at hx
      exact absurd hx (by decide)
    | false =>
      rw [hc2] at hl
      simp only [Bool.false_eq_true, if_false] at hl
      refine ⟨fun hx => ?_, fun hx => ?_⟩ <;> rw [hl] at hx <;> exact absurd hx (by decide)

/-- Witness for C6: at the default CNC bands, the boundary reading
(95, 70, 1500, 10000) collects no per-metric alert yet scores 44, so the
tier is Medium and the fallback alert is substituted. -/
theorem C6_generic_fallback_alerts_witness :
    perMetricAlerts 95 70 1500 10000 cncTempBand cncVibBand cncFeedBand cncHoursBand = [] ∧
    (scoreCore 95 70 1500 10000 cncTempBand cncVibBand cncFeedBand
      cncHoursBand).condition_level = "Medium" ∧
    (scoreCore 95 70 1500 10000 cncTempBand cncVibBand cncFeedBand
      cncHoursBand).alerts = ["Schedule inspection"] := by
  have hpm : perMetricAlerts 95 70 1500 10000 cncTempBand cncVibBand cncFeedBand
      cncHoursBand = [] := by
    norm_num [perMetricAlerts, tempAlerts, vibAlerts, feedAlerts, hoursAlerts,
      cncTempBand, cncVibBand, cncFeedBand, cncHoursBand]
  have hlev : (scoreCore 95 70 1500 10000 cncTempBand cncVibBand cncFeedBand
      cncHoursBand).condition_level = "Medium" := by
    norm_num [scoreCore, rawRisk, weightedRisk, calculate_subscore, truthy, perMetricAlerts,
      tempAlerts, vibAlerts, feedAlerts, hoursAlerts, hasRed, hasYellow, classify, round2,
      cncTempBand, cncVibBand, cncFeedBand, cncHoursBand]
  exact ⟨hpm, hlev, (C6_generic_fallback_alerts 95 70 1500 10000 cncTempBand cncVibBand
    cncFeedBand cncHoursBand hpm).2 hlev⟩

/-- C1: the subscore function is the three-segment piecewise-linear map with
the spec's fixed points: for a band with `0 < green < yellow` (and red past
yellow when present), `subscore 0 = 0`; on `0 ≤ value ≤ green` it equals
`(value/green)*30` and is monotonically non-decreasing; `subscore green = 30`;
with no red breakpoint `subscore yellow = 70`; with a red breakpoint
`subscore red = 100` and `subscore value = 100` for every `value > red`. -/
theorem C1_subscore_piecewise (g y : ℚ) (red : Option ℚ)
    (hg : 0 < g) (hgy : g < y) (hred : ∀ r, red = some r → y < r) :
    calculate_subscore 0 g y red = 0 ∧
    (∀ v, 0 ≤ v → v ≤ g → calculate_subscore v g y red = (v / g) * 30) ∧
    (∀ v₁ v₂, 0 ≤ v₁ → v₁ ≤ v₂ → v₂ ≤ g →
      calculate_subscore v₁ g y red ≤ calculate_subscore v₂ g y red) ∧
    calculate_subscore g g y red = 30 ∧
    calculate_subscore y g y none = 70 ∧
    (∀ r, red = some r → calculate_subscore r g y red = 100 ∧
      ∀ w, r < w → calculate_subscore w g y red = 100) := by
  refine ⟨?_, ?_, ?_, ?_, ?_, ?_⟩
  · unfold calculate_subscore
    rw [if_pos hg.le]
    simp
  · intro v _ hvg
    unfold calculate_subscore
    rw [if_pos hvg]
  · intro v₁ v₂ _ h12 h2g
    unfold calculate_subscore
    rw [if_pos (h12.trans h2g), if_pos h2g]
    exact mul_le_mul_of_nonneg_right ((div_le_div_iff_of_pos_right hg).mpr h12) (by norm_num)
  · unfold calculate_subscore
    rw [if_pos le_rfl, div_self hg.ne']
    norm_num
  · unfold calculate_subscore
    rw [if_neg (not_le.mpr hgy), if_pos le_rfl, div_self (sub_ne_zero.mpr hgy.ne')]
    norm_num
  · intro r hr
    subst hr
    have hyr : y < r := hred r rfl
    have hr0 : r ≠ 0 := ((hg.trans hgy).trans hyr).ne'
    have htr : truthy (some r) = true := bne_iff_ne.mpr hr0
    constructor
    · unfold calculate_subscore
      rw [if_neg (not_le.mpr (hgy.trans hyr)), if_neg (not_le.mpr hyr), if_pos htr]
      simp only [Option.getD_some, min_self]
      rw [div_self (sub_ne_zero.mpr hyr.ne')]
      norm_num
    · intro w hw
      unfold calculate_subscore
      rw [if_neg (not_le.mpr (hgy.trans (hyr.trans hw))), if_neg (not_le.mpr (hyr.trans hw)),
        if_pos htr]
      simp only [Option.getD_some]
      rw [min_eq_right (by linarith : r - y ≤ w - y), div_self (sub_ne_zero.mpr hyr.ne')]
      norm_num

/-- Witness for C1 at the band `green = 1`, `yellow = 2`, `red = 3`. -/
theorem C1_subscore_piecewise_witness :
    (0:ℚ) < 1 ∧ (1:ℚ) < 2 ∧ (∀ r : ℚ, (some 3 : Option ℚ) = some r → 2 < r) ∧
    (calculate_subscore 0 1 2 (some 3) = 0 ∧
      (∀ v, 0 ≤ v → v ≤ 1 → calculate_subscore v 1 2 (some 3) = (v / 1) * 30) ∧
      (∀ v₁ v₂, 0 ≤ v₁ → v₁ ≤ v₂ → v₂ ≤ 1 →
        calculate_subscore v₁ 1 2 (some 3) ≤ calculate_subscore v₂ 1 2 (some 3)) ∧
      calculate_subscore 1 1 2 (some 3) = 30 ∧
      calculate_subscore 2 1 2 none = 70 ∧
      (∀ r, (some 3 : Option ℚ) = some r → calculate_subscore r 1 2 (some 3) = 100 ∧
        ∀ w, r < w → calculate_subscore w 1 2 (some 3) = 100)) :=
  ⟨by norm_num, by norm_num, fun r hr => by injection hr with hr; subst hr; norm_num,
    C1_subscore_piecewise 1 2 (some 3) (by norm_num) (by norm_num)
      (fun r hr => by injection hr with hr; subst hr; norm_num)⟩

/-- C5: for every value `≥ 0` and every band with `0 < green < yellow`
(and red past yellow when present), the subscore lies in `[0, 100]`;
in particular the no-red far-overshoot case is clamped to 100. -/
theorem C5_subscore_in_range (v g y : ℚ) (red : Option ℚ)
    (hv : 0 ≤ v) (hg : 0 < g) (hgy : g < y) (hred : ∀ r, red = some r → y < r) :
    0 ≤ calculate_subscore v g y red ∧ calculate_subscore v g y red ≤ 100 := by
  have hy0 : (0:ℚ) < y := hg.trans hgy
  unfold calculate_subscore
  split_ifs with h1 h2 h3
  · constructor
    · exact mul_nonneg (div_nonneg hv hg.le) (by norm_num)
    · have : v / g ≤ 1 := (div_le_one hg).mpr h1
      nlinarith
  · have hgv : g < v := not_le.mp h1
    have hpos : (0:ℚ) < y - g := by linarith
    constructor
    · have : 0 ≤ (v - g) / (y - g) := div_nonneg (by linarith) hpos.le
      nlinarith
    · have : (v - g) / (y - g) ≤ 1 := (div_le_one hpos).mpr (by linarith)
      nlinarith
  · have hyv : y < v := not_le.mp h2
    obtain ⟨r, hr⟩ : ∃ r, red = some r := by
      cases hcase : red with
      | none => rw [hcase] at h3; simp [truthy] at h3
      | some r => exact ⟨r, rfl⟩
    subst hr
    have hyr : y < r := hred r rfl
    have hpos : (0:ℚ) < r - y := by linarith
    simp only [Option.getD_some]
    have hmin0 : 0 ≤ min (v - y) (r - y) := le_min (by linarith) (by linarith)
    have hmin1 : min (v - y) (r - y) / (r - y) ≤ 1 :=
      (div_le_one hpos).mpr (min_le_right _ _)
    have hdiv0 : 0 ≤ min (v - y) (r - y) / (r - y) := div_nonneg hmin0 hpos.le
    constructor
    · nlinarith
    · nlinarith
  · have hyv : y < v := not_le.mp h2
    constructor
    · refine le_min ?_ (by norm_num)
      have : 0 ≤ (v - y) / y := div_nonneg (by linarith) hy0.le
      nlinarith
    · exact min_le_right _ _

/-- Witness for C5 at `value = 500` far beyond `yellow = 2` with no red band.  -/
theorem C5_subscore_in_range_witness :
    (0:ℚ) ≤ 500 ∧ (0:ℚ) < 1 ∧ (1:ℚ) < 2 ∧ (∀ r : ℚ, (none : Option ℚ) = some r → 2 < r) ∧
    (0 ≤ calculate_subscore 500 1 2 none ∧ calculate_subscore 500 1 2 none ≤ 100) :=
  ⟨by norm_num, by norm_num, by norm_num, fun r hr => Option.noConfusion hr,
    C5_subscore_in_range 500 1 2 none (by norm_num) (by norm_num) (by norm_num)
      (fun r hr => Option.noConfusion hr)⟩

/-- C4: the reported risk score is the fixed-weight aggregate
`0.35*temperature + 0.35*vibration + 0.15*feed_rate + 0.15*running_hours`
over the four subscores, rounded to 2 decimal places; four subscores all
equal to 50 aggregate to exactly 50. -/
theorem C4_weighted_aggregate (t v f h : ℚ) (tb vb fb hb : Band) :
    (scoreCore t v f h tb vb fb hb).risk_score =
      round2 (0.35 * calculate_subscore t tb.green tb.yellow (some (tb.red.getD 120)) +
        0.35 * calculate_subscore v vb.green vb.yellow none +
        0.15 * calculate_subscore f fb.green fb.yellow none +
        0.15 * calculate_subscore h hb.green hb.yellow none) ∧
    weightedRisk 50 50 50 50 = 50 ∧ round2 (weightedRisk 50 50 50 50) = 50 :=
  ⟨rfl, by norm_num [weightedRisk], by norm_num [weightedRisk, round2, round_eq]⟩

/-- The example reading of the spec's scenario: machine CNC,
running hours 5000, feed 1000, temperature 60, vibration 50. -/
def cncExampleRequest : PredictionRequest :=
  { machine_type := "CNC", running_hours := 5000, feeding_rate := 1000,
    temperature := some 60, vibration := 50, maintenance_date := "2024-01-01" }

/-- A stored configuration in shopfloor mode with the built-in defaults. -/
def shopfloorDefaultConfig : Config :=
  { sensor_mode := some "shopfloor_high_temp", thresholds := some DEFAULT_THRESHOLDS }

/-- C9: the example scenario — CNC in shopfloor mode, reading
(5000 h, 1000 mm/min, 60 °C, 50 µm) against the built-in defaults —
yields subscores 24, 150/7, 20, 15, reported risk score 21.15,
condition Good, and exactly the single safe-bands alert. -/
theorem C9_example_scenario :
    calculate_subscore 60 75 95 (some 120) = 24 ∧
    calculate_subscore 50 70 100 none = 150 / 7 ∧
    calculate_subscore 1000 1500 2000 none = 20 ∧
    calculate_subscore 5000 10000 12000 none = 15 ∧
    predict (some shopfloorDefaultConfig) [] cncExampleRequest =
      Except.ok { condition_level := "Good", risk_score := 2115 / 100,
                  alerts := ["All metrics within safe bands"] } := by
  refine ⟨by norm_num [calculate_subscore], by norm_num [calculate_subscore],
    by norm_num [calculate_subscore], by norm_num [calculate_subscore], ?_⟩
  have step : predict (some shopfloorDefaultConfig) [] cncExampleRequest =
      Except.ok (scoreCore 60 50 1000 5000 cncTempBand cncVibBand cncFeedBand
        cncHoursBand) := rfl
  rw [step]
  exact congrArg Except.ok (by
    norm_num [scoreCore, rawRisk, weightedRisk, calculate_subscore, truthy, perMetricAlerts,
      tempAlerts, vibAlerts, feedAlerts, hoursAlerts, hasRed, hasYellow, classify, round2,
      round_eq, cncTempBand, cncVibBand, cncFeedBand, cncHoursBand])

/-- A reading whose machine type is none of the four recognized values. -/
def unknownMachineRequest : PredictionRequest :=
  { machine_type := "Foo", running_hours := 0, feeding_rate := 0,
    temperature := some 50, vibration := 0, maintenance_date := "2024-01-01" }

/-- Counterexample to C7 as stated: for the unrecognized machine type "Foo"
the pipeline fails with the **generic dictionary-lookup error**
`KeyError("Foo")` — the handler has no distinct UnknownMachineType rejection
— and produces no result record. -/
theorem C7_unknown_machine_counterexample :
    predict none [] unknownMachineRequest = Except.error (PredictError.keyError "Foo") ∧
    ∀ res : PredictResult, predict none [] unknownMachineRequest ≠ Except.ok res := by
  refine ⟨rfl, fun res hres => ?_⟩
  rw [show predict none [] unknownMachineRequest =
    Except.error (PredictError.keyError "Foo") from rfl] at hres
  exact Except.noConfusion hres

/-- C7 as amended: under the built-in default thresholds (first-run
configuration), every reading with an unrecognized machine type and a
supplied temperature fails with the uncaught `KeyError` naming the machine
type — a generic lookup failure, with no partial scoring. -/
theorem C7_unknown_machine_keyerror (request : PredictionRequest)
    (latest : List (String × ℚ)) (tq : ℚ)
    (hm : request.machine_type ∉ (["CNC", "EDM", "Lathe", "Grinding"] : List String))
    (ht : request.temperature = some tq) :
    predict none latest request = Except.error (PredictError.keyError request.machine_type) := by
  simp only [List.mem_cons, List.mem_singleton, not_or] at hm
  obtain ⟨h1, h2, h3, h4, -⟩ := hm
  simp [predict, configToUse, resolveTemperature, ht, tempBandLookup, lookupBand,
    DEFAULT_THRESHOLDS, List.lookup, beq_eq_false_iff_ne.mpr h1, beq_eq_false_iff_ne.mpr h2,
    beq_eq_false_iff_ne.mpr h3, beq_eq_false_iff_ne.mpr h4]

/-- Witness for C7's amended statement at the machine type "Foo". -/
theorem C7_unknown_machine_keyerror_witness :
    unknownMachineRequest.machine_type ∉ (["CNC", "EDM", "Lathe", "Grinding"] : List String) ∧
    unknownMachineRequest.temperature = some 50 ∧
    predict none [] unknownMachineRequest =
      Except.error (PredictError.keyError unknownMachineRequest.machine_type) := by
  have hm : unknownMachineRequest.machine_type ∉
      (["CNC", "EDM", "Lathe", "Grinding"] : List String) := by decide
  exact ⟨hm, rfl, C7_unknown_machine_keyerror unknownMachineRequest [] 50 hm rfl⟩

/-- A reading for machine EDM with temperature supplied. -/
def basicEDMRequest : PredictionRequest :=
  { machine_type := "EDM", running_hours := 0, feeding_rate := 0,
    temperature := some 50, vibration := 0, maintenance_date := "2024-01-01" }

/-- A stored configuration that is present but has no thresholds table. -/
def configWithoutThresholds : Config :=
  { sensor_mode := some "shopfloor_high_temp", thresholds := none }

/-- A thresholds table supplying vibration bands only for CNC. -/
def thresholdsVibOnlyCNC : ThresholdsDB :=
  { prototype_temp := some ⟨40, 45, some 120⟩
    shopfloor := DEFAULT_THRESHOLDS.shopfloor
    vibration := [("CNC", ⟨70, 100, none⟩)]
    feed_rate := DEFAULT_THRESHOLDS.feed_rate
    running_hours := DEFAULT_THRESHOLDS.running_hours }

/-- A stored configuration whose thresholds supply vibration only for CNC. -/
def configVibOnlyCNC : Config :=
  { sensor_mode := some "prototype_low_temp", thresholds := some thresholdsVibOnlyCNC }

/-- Counterexample to C8 as stated: a configuration that is present but
lacks the thresholds table entirely (so every required band is missing) is
scored successfully against the silently substituted built-in defaults —
no error is raised — and the defaults are not persisted. -/
theorem C8_missing_table_counterexample :
    configWithoutThresholds.thresholds = none ∧
    (configToUse (some configWithoutThresholds)).2 = false ∧
    predict (some configWithoutThresholds) [] basicEDMRequest =
      Except.ok { condition_level := "Good", risk_score := 15 / 2,
                  alerts := ["All metrics within safe bands"] } := by
  refine ⟨rfl, rfl, ?_⟩
  have step : predict (some configWithoutThresholds) [] basicEDMRequest =
      Except.ok (scoreCore 50 0 0 0 ⟨70, 90, some 120⟩ ⟨60, 90, none⟩ ⟨500, 700, none⟩
        ⟨9000, 11000, none⟩) := rfl
  rw [step]
  exact congrArg Except.ok (by
    norm_num [scoreCore, rawRisk, weightedRisk, calculate_subscore, truthy, perMetricAlerts,
      tempAlerts, vibAlerts, feedAlerts, hoursAlerts, hasRed, hasYellow, classify, round2,
      round_eq])

/-- C8 as amended: band lookups inside a supplied thresholds table are
strict — vibration bands supplied only for CNC make an EDM reading fail
with `KeyError("EDM")`, with no default substituted and nothing persisted;
a wholly absent configuration uses and persists the full built-in default
table; but a present configuration with no thresholds table at all silently
behaves exactly as if it held the built-in defaults, without persisting. -/
theorem C8_strict_lookup_amended :
    predict (some configVibOnlyCNC) [] basicEDMRequest =
      Except.error (PredictError.keyError "EDM") ∧
    (configToUse (some configVibOnlyCNC)).2 = false ∧
    (configToUse none).1.thresholds = some DEFAULT_THRESHOLDS ∧
    (configToUse none).2 = true ∧
    predict (some configWithoutThresholds) [] basicEDMRequest =
      predict (some { sensor_mode := some "shopfloor_high_temp",
                      thresholds := some DEFAULT_THRESHOLDS }) [] basicEDMRequest :=
  ⟨rfl, rfl, rfl, rfl, rfl⟩

/-- C10: temperature band selection branches only on whether the sensor mode
equals the literal "prototype_low_temp" — every other string, recognized or
not, selects the per-machine shopfloor table, with no rejection of unknown
sensor modes. -/
theorem C10_sensor_mode_dispatch (mode : String) (thr : ThresholdsDB) (machine : String)
    (hmode : mode ≠ "prototype_low_temp") :
    tempBandLookup mode thr machine = lookupBand thr.shopfloor machine ∧
    tempBandLookup mode thr machine = tempBandLookup "shopfloor_high_temp" thr machine := by
  unfold tempBandLookup
  rw [if_neg hmode, if_neg (by decide : ¬("shopfloor_high_temp" = "prototype_low_temp"))]
  exact ⟨rfl, rfl⟩

/-- Witness for C10 at the unrecognized sensor mode "weird_mode". -/
theorem C10_sensor_mode_dispatch_witness :
    ("weird_mode" : String) ≠ "prototype_low_temp" ∧
    tempBandLookup "weird_mode" DEFAULT_THRESHOLDS "CNC" =
      lookupBand DEFAULT_THRESHOLDS.shopfloor "CNC" ∧
    tempBandLookup "weird_mode" DEFAULT_THRESHOLDS "CNC" =
      Except.ok ⟨75, 95, some 120⟩ := by
  have hne : ("weird_mode" : String) ≠ "prototype_low_temp" := by decide
  exact ⟨hne, (C10_sensor_mode_dispatch "weird_mode" DEFAULT_THRESHOLDS "CNC" hne).1, rfl⟩

end PredMaint
